import Mathlib

/-!
# manunited: fixtures browser

A shallow embedding of `main.go`: the menu reducer (`Update`), the four cached
fixture queries (`getLastMatch`, `getLastFiveMatches`, `getNextMatch`,
`getNextFiveMatches`), the HTTP wrapper (`httpClient.do`) and the right-panel text
computed by `View`.

Collaborators that live outside the repository are explicit:
* the HTTP transport and `json.Unmarshal` are fields of `Env`;
* the `bubbles/list` widget is a `ListLib`;
* the `time` package is a `TimeLib`; `goTime` is a model of it for the two layouts
  the program uses;
* `go-cache` is modelled by `Cache` with its `Get`/`Set`.
-/

namespace ManUnited

/-! ## Data model (`main.go` 352-396) -/

def manchesterUnitedID : Int := 33
def premierLeagueID : Int := 39
def rapidapiBaseUrl : String := "https://api-football-v1.p.rapidapi.com/v3"

structure venue where
  Name : String
  City : String
deriving DecidableEq, Repr

structure fixture where
  ID : Int
  Date : String
  Venue : venue
  TimeZone : String
deriving DecidableEq, Repr

structure league where
  ID : Int
  Name : String
deriving DecidableEq, Repr

/-- The anonymous struct of `response.Teams.Home` / `response.Teams.Away`. -/
structure side where
  ID : Int
  Name : String
deriving DecidableEq, Repr

/-- The anonymous struct of `response.Teams`. -/
structure teams where
  Home : side
  Away : side
deriving DecidableEq, Repr

/-- The anonymous struct of `response.Goals`. -/
structure goals where
  Home : Int
  Away : Int
deriving DecidableEq, Repr

structure response where
  Fixture : fixture
  League : league
  Teams : teams
  Goals : goals
deriving DecidableEq, Repr

structure fixtureResponse where
  Response : List response
deriving DecidableEq, Repr

/-- The zero value `fixtureResponse{}`. -/
def fixtureResponse.zero : fixtureResponse := ⟨[]⟩

/-- Go: `isManUtdHomeMatch` (464-466). -/
def isManUtdHomeMatch (r : response) : Bool :=
  r.Teams.Home.ID == manchesterUnitedID

/-! ## Menu items (39-55) -/

abbrev menuItem := String

def lastMatch : menuItem := "Last match"
def nextMatch : menuItem := "Next match"
def nextFiveMatches : menuItem := "Next 5 matches"
def lastFiveMatches : menuItem := "Last 5 matches"

def getMenus : List menuItem :=
  [lastMatch, lastFiveMatches, nextMatch, nextFiveMatches]

/-! ## The `time` package -/

/-- The two calls the program makes into Go's `time` package:
`Parse s` is `time.Parse(time.RFC3339, s)` with a failure carried as the text of
`err.Error()`, and `Format t` is `t.Format("2006 Jan 2 3:04 PM")`. -/
structure TimeLib where
  Time : Type
  Parse : String → Except String Time
  Format : Time → String

/-- An instant as Go's `time.Time` keeps it, to the second: seconds since the Unix
epoch and the offset east of UTC of its location at that instant. -/
structure GoTime where
  unixSec : Int
  offset : Int
deriving DecidableEq, Repr

def isDigit (c : Char) : Bool := decide ('0' ≤ c) && decide (c ≤ '9')

def digitVal (c : Char) : Nat := c.toNat - '0'.toNat

/-- Go: `time.getnum`: one or two leading decimal digits (exactly two when
`fixed`), and the rest of the text. -/
def getnum (s : List Char) (fixed : Bool) : Option (Nat × List Char) :=
  match s with
  | [] => none
  | [c0] =>
    if !isDigit c0 then none
    else if fixed then none
    else some (digitVal c0, [])
  | c0 :: c1 :: rest =>
    if !isDigit c0 then none
    else if !isDigit c1 then
      if fixed then none else some (digitVal c0, c1 :: rest)
    else some (digitVal c0 * 10 + digitVal c1, rest)

/-- The layout element `2006`: four characters, all digits. -/
def getyear (s : List Char) : Option (Nat × List Char) :=
  match s with
  | a :: b :: c :: d :: rest =>
    if isDigit a && isDigit b && isDigit c && isDigit d then
      some (((digitVal a * 10 + digitVal b) * 10 + digitVal c) * 10 + digitVal d, rest)
    else none
  | _ => none

/-- A literal character of the layout. -/
def skipChar (c : Char) (s : List Char) : Option (List Char) :=
  match s with
  | [] => none
  | x :: rest => if x = c then some rest else none

/-- Fractional seconds that the layout does not mention are accepted after the
seconds field: a period or comma followed by at least one digit. -/
def skipFraction (s : List Char) : List Char :=
  match s with
  | p :: d :: rest =>
    if (p = '.' || p = ',') && isDigit d then rest.dropWhile isDigit else s
  | _ => s

/-- The layout element `Z07:00`: `Z`, or a sign and `hh:mm`. The result is the
offset in seconds east of UTC. -/
def getzone (s : List Char) : Option (Int × List Char) :=
  match s with
  | 'Z' :: rest => some (0, rest)
  | sign :: h0 :: h1 :: c :: m0 :: m1 :: rest =>
    if c ≠ ':' then none
    else
      match getnum [h0, h1] true, getnum [m0, m1] true with
      | some (hr, _), some (mm, _) =>
        if hr > 24 || mm > 60 then none
        else
          let zoneOffset : Int := ((hr * 60 + mm) * 60 : Nat)
          if sign = '+' then some (zoneOffset, rest)
          else if sign = '-' then some (-zoneOffset, rest)
          else none
      | _, _ => none
  | _ => none

def isLeap (year : Int) : Bool :=
  year % 4 == 0 && (year % 100 != 0 || year % 400 == 0)

/-- Go: `time.daysIn`. -/
def daysIn (month : Nat) (year : Int) : Nat :=
  if month == 2 then (if isLeap year then 29 else 28)
  else if month == 4 || month == 6 || month == 9 || month == 11 then 30
  else 31

/-- Days from 1970-01-01 to the given date of the proleptic Gregorian calendar. -/
def daysFromCivil (year : Int) (month day : Nat) : Int :=
  let y : Int := if month ≤ 2 then year - 1 else year
  let era : Int := y / 400
  let yoe : Int := y - era * 400
  let mp : Int := if month > 2 then (month : Int) - 3 else (month : Int) + 9
  let doy : Int := (153 * mp + 2) / 5 + (day : Int) - 1
  let doe : Int := yoe * 365 + yoe / 4 - yoe / 100 + doy
  era * 146097 + doe - 719468

/-- The date (year, month, day of month) that lies the given number of days from
1970-01-01. -/
def civilFromDays (days : Int) : Int × Nat × Nat :=
  let z : Int := days + 719468
  let era : Int := z / 146097
  let doe : Int := z - era * 146097
  let yoe : Int := (doe - doe / 1460 + doe / 36524 - doe / 146096) / 365
  let doy : Int := doe - (365 * yoe + yoe / 4 - yoe / 100)
  let mp : Int := (5 * doy + 2) / 153
  let d : Int := doy - (153 * mp + 2) / 5 + 1
  let m : Int := if mp < 10 then mp + 3 else mp - 9
  let y : Int := yoe + era * 400
  (if m ≤ 2 then y + 1 else y, m.toNat, d.toNat)

/-- Go: `time.Date(year, month, day, hour, min, sec, 0, time.UTC)` on fields that
are already in range. -/
def dateUTC (year : Int) (month day hour min sec : Nat) : Int :=
  daysFromCivil year month day * 86400 + ((hour * 3600 + min * 60 + sec : Nat) : Int)

/-- The fields of `time.Parse(time.RFC3339, value)` when it succeeds: the layout
`2006-01-02T15:04:05Z07:00` read element by element, then the checks on the day
of the month and on trailing text. -/
def parseRFC3339 (value : List Char) : Option GoTime := do
  let (year, v) ← getyear value
  let v ← skipChar '-' v
  let (month, v) ← getnum v true
  if month = 0 || 12 < month then none
  let v ← skipChar '-' v
  let (day, v) ← getnum v true
  let v ← skipChar 'T' v
  let (hour, v) ← getnum v false
  if 24 ≤ hour then none
  let v ← skipChar ':' v
  let (min, v) ← getnum v true
  if 60 ≤ min then none
  let v ← skipChar ':' v
  let (sec, v) ← getnum v true
  if 60 ≤ sec then none
  let v := skipFraction v
  let (zoneOffset, v) ← getzone v
  if !v.isEmpty then none
  if day < 1 || day > daysIn month year then none
  some ⟨dateUTC year month day hour min sec - zoneOffset, zoneOffset⟩

/-- Go: `time.appendInt` for a non-negative number: decimal, zero padded to
`width`. -/
def appendNat (n width : Nat) : String :=
  let ds := Nat.toDigits 10 n
  String.mk (List.replicate (width - ds.length) '0' ++ ds)

/-- Go: `time.appendInt`. -/
def appendInt (x : Int) (width : Nat) : String :=
  if x < 0 then "-" ++ appendNat (-x).toNat width else appendNat x.toNat width

/-- Go: `Month.String()[:3]`. -/
def shortMonth (month : Nat) : String :=
  match month with
  | 1 => "Jan" | 2 => "Feb" | 3 => "Mar" | 4 => "Apr" | 5 => "May" | 6 => "Jun"
  | 7 => "Jul" | 8 => "Aug" | 9 => "Sep" | 10 => "Oct" | 11 => "Nov" | 12 => "Dec"
  | _ => "%!M"

/-- Go: `t.Format("2006 Jan 2 3:04 PM")`: the date and clock of the instant in the
location of `t`. -/
def formatStamp (t : GoTime) : String :=
  let abs : Int := t.unixSec + t.offset
  let days : Int := abs / 86400
  let secs : Nat := (abs % 86400).toNat
  let (year, month, day) := civilFromDays days
  let hour : Nat := secs / 3600
  let min : Nat := secs % 3600 / 60
  let hr : Nat := if hour % 12 = 0 then 12 else hour % 12
  appendInt year 4 ++ " " ++ shortMonth month ++ " " ++ appendNat day 0 ++ " "
    ++ appendNat hr 0 ++ ":" ++ appendNat min 2 ++ " "
    ++ (if hour ≥ 12 then "PM" else "AM")

/-- Go's `time` package on the two layouts of the program. `errText value` is the
text of the `*time.ParseError` that `time.Parse` returns for a rejected `value`. -/
def goTime (errText : String → String) : TimeLib where
  Time := GoTime
  Parse := fun value =>
    match parseRFC3339 value.data with
    | some t => .ok t
    | none => .error (errText value)
  Format := formatStamp

/-- Go: `fmt.Sprintf("%d", n)`. -/
def sprintD (n : Int) : String := toString n

/-! ## HTTP wrapper (314-350) -/

/-- Go: `url.Values`, the pairs in the order `Add` received them. -/
abbrev Values := List (String × String)

def Values.Add (v : Values) (key value : String) : Values := v ++ [(key, value)]

def hexUpper (n : Nat) : Char := "0123456789ABCDEF".data.getD n '0'

/-- Go: `url.QueryEscape`. -/
def QueryEscape (s : String) : String :=
  String.mk (s.data.flatMap fun c =>
    if c.isAlphanum || c = '-' || c = '_' || c = '.' || c = '~' then [c]
    else if c = ' ' then ['+']
    else (String.utf8EncodeChar c).flatMap fun b =>
      ['%', hexUpper (b.toNat / 16), hexUpper (b.toNat % 16)])

/-- Go: `url.Values.Encode`: `key=value` pairs joined by `&`, sorted by key. -/
def Values.Encode (v : Values) : String :=
  "&".intercalate
    ((v.insertionSort fun a b => a.1 ≤ b.1).map fun kv =>
      QueryEscape kv.1 ++ "=" ++ QueryEscape kv.2)

structure Request where
  Method : String
  URL : String
  Header : List (String × String)
deriving DecidableEq, Repr

def Request.HeaderAdd (req : Request) (key value : String) : Request :=
  { req with Header := req.Header ++ [(key, value)] }

def afterScheme : List Char → List Char
  | ':' :: '/' :: '/' :: rest => rest
  | _ :: rest => afterScheme rest
  | [] => []

/-- Go: `req.URL.RequestURI()` for a URL `scheme://host/path?query`. -/
def Request.RequestURI (req : Request) : String :=
  String.mk ((afterScheme req.URL.data).dropWhile fun c => c != '/')

/-- What `c.client.Do(req)` hands back when it does not fail: the status code and
the outcome of `io.ReadAll(res.Body)`. -/
structure HttpResponse where
  StatusCode : Nat
  Body : Except String String

/-- The collaborators of one query: the HTTP transport (with its 5 second
timeout), the wall-clock time a round trip takes in nanoseconds, and
`json.Unmarshal` into a `fixtureResponse`. Errors are carried as their text. -/
structure Env where
  clientDo : Request → Except String HttpResponse
  elapsed : Request → Nat
  Unmarshal : String → Except String fixtureResponse

structure httpClient where
  rapidapiHost : String
  rapidapiKey : String
deriving DecidableEq, Repr

def newHttpClient (rapidapiHost rapidapiKey : String) : httpClient :=
  { rapidapiHost := rapidapiHost, rapidapiKey := rapidapiKey }

/-! ## Result cache (`go-cache`) -/

/-- Nanoseconds, as `time.Duration` and `UnixNano` count them. -/
def Second : Int := 1000000000
def Minute : Int := 60 * Second

/-- Go: `cache.DefaultExpiration`. -/
def DefaultExpiration : Int := 0

/-- Go: `cache.Item`: `Expiration` is the `UnixNano` after which the item is stale,
or `0` for an item that never expires. -/
structure Item where
  Object : fixtureResponse
  Expiration : Int
deriving DecidableEq, Repr

structure Cache where
  defaultExpiration : Int
  items : String → Option Item

/-- Go: `cache.New(defaultExpiration, cleanupInterval)`. The janitor that runs every
`cleanupInterval` deletes only items that `Get` already reports as absent. -/
def Cache.New (defaultExpiration _cleanupInterval : Int) : Cache :=
  { defaultExpiration := if defaultExpiration = 0 then -1 else defaultExpiration
    items := fun _ => none }

/-- Go: `(*cache).Get` at wall-clock time `now`. -/
def Cache.Get (c : Cache) (now : Int) (k : String) : Option fixtureResponse :=
  match c.items k with
  | none => none
  | some item =>
    if item.Expiration > 0 && now > item.Expiration then none
    else some item.Object

/-- Go: `(*cache).Set` at wall-clock time `now`. -/
def Cache.Set (c : Cache) (now : Int) (k : String) (x : fixtureResponse) (d : Int) : Cache :=
  let d := if d = DefaultExpiration then c.defaultExpiration else d
  let e : Int := if d > 0 then now + d else 0
  { c with items := fun k' => if k' = k then some ⟨x, e⟩ else c.items k' }

/-- The mutable world of the program: the cache behind `model.cache`, the wall
clock (`UnixNano`), and the requests handed to the transport so far. -/
structure State where
  cache : Cache
  now : Int
  sent : List Request

/-- Go: `(*httpClient).do` (330-350). -/
def httpClient.do (c : httpClient) (env : Env) (req : Request) (s : State) :
    Except String String × State :=
  let req := req.HeaderAdd "x-rapidapi-host" c.rapidapiHost
  let req := req.HeaderAdd "x-rapidapi-key" c.rapidapiKey
  let s := { s with sent := s.sent ++ [req], now := s.now + env.elapsed req }
  match env.clientDo req with
  | .error err => (.error err, s)
  | .ok res =>
    if res.StatusCode ≠ 200 then
      (.error ("unsuccessful request: " ++ req.RequestURI), s)
    else
      match res.Body with
      | .error err => (.error err, s)
      | .ok data => (.ok data, s)

/-! ## The bubbletea model (82-118) -/

/-- Go: `tea.Msg`, with a key message carried as its `String()`. -/
inductive Msg where
  | WindowSizeMsg (Width Height : Int)
  | KeyMsg (keypress : String)
  | other (tag : Nat)
deriving DecidableEq, Repr

/-- Go: `tea.Cmd`. -/
inductive Cmd where
  | nil
  | Quit
  | other (tag : Nat)
deriving DecidableEq, Repr

/-- The `bubbles/list` widget as the program uses it. `SelectedItem` is
`SelectedItem().(menuItem)`, `none` when the assertion fails. -/
structure ListLib where
  Model : Type
  SetWidth : Model → Int → Model
  SelectedItem : Model → Option menuItem
  Update : Model → Msg → Model × Cmd
  View : Model → String

/-- Go: `model`; the cache that `model.cache` points to lives in `State`. -/
structure model (lib : ListLib) where
  list : lib.Model
  choice : String
  quitting : Bool
  httpClient : httpClient

/-- Go: `model.Update` (94-118). -/
def Update (lib : ListLib) (m : model lib) (msg : Msg) : model lib × Cmd :=
  match msg with
  | .WindowSizeMsg Width _ => ({ m with list := lib.SetWidth m.list Width }, .nil)
  | .KeyMsg keypress =>
    if keypress = "q" ∨ keypress = "ctrl+c" then
      ({ m with quitting := true }, .Quit)
    else
      let m :=
        if keypress = "enter" then
          match lib.SelectedItem m.list with
          | some i => { m with choice := i }
          | none => m
        else m
      let (l, cmd) := lib.Update m.list msg
      ({ m with list := l }, cmd)
  | .other _ =>
    let (l, cmd) := lib.Update m.list msg
    ({ m with list := l }, cmd)

/-! ## The four queries (398-530)

`http.NewRequestWithContext` is given a constant method and a well-formed URL and
does not fail. -/

/-- Go: `model.getLastMatch` (398-429). -/
def getLastMatch {lib : ListLib} (m : model lib) (env : Env) (s : State) :
    Except String fixtureResponse × State :=
  let cacheKey := "lastMatch"
  match s.cache.Get s.now cacheKey with
  | some cachedData => (.ok cachedData, s)
  | none =>
    let params : Values := []
    let params := params.Add "team" (sprintD manchesterUnitedID)
    let params := params.Add "last" "1"
    let params := params.Add "status" "FT"
    let params := params.Add "timezone" "Australia/Perth"
    let url := rapidapiBaseUrl ++ "/fixtures?" ++ params.Encode
    let req : Request := ⟨"GET", url, []⟩
    match m.httpClient.do env req s with
    | (.error err, s) => (.error err, s)
    | (.ok data, s) =>
      match env.Unmarshal data with
      | .error err => (.error err, s)
      | .ok res =>
        (.ok res, { s with cache := s.cache.Set s.now cacheKey res DefaultExpiration })

/-- Go: `model.getLastFiveMatches` (431-462). -/
def getLastFiveMatches {lib : ListLib} (m : model lib) (env : Env) (s : State) :
    Except String fixtureResponse × State :=
  let cacheKey := "lastFiveMatches"
  match s.cache.Get s.now cacheKey with
  | some cachedData => (.ok cachedData, s)
  | none =>
    let params : Values := []
    let params := params.Add "team" (sprintD manchesterUnitedID)
    let params := params.Add "last" "5"
    let params := params.Add "status" "FT"
    let params := params.Add "timezone" "Australia/Perth"
    let url := rapidapiBaseUrl ++ "/fixtures?" ++ params.Encode
    let req : Request := ⟨"GET", url, []⟩
    match m.httpClient.do env req s with
    | (.error err, s) => (.error err, s)
    | (.ok data, s) =>
      match env.Unmarshal data with
      | .error err => (.error err, s)
      | .ok res =>
        (.ok res, { s with cache := s.cache.Set s.now cacheKey res DefaultExpiration })

/-- Go: `model.getNextMatch` (468-498). -/
def getNextMatch {lib : ListLib} (m : model lib) (env : Env) (s : State) :
    Except String fixtureResponse × State :=
  let cacheKey := "nextMatch"
  match s.cache.Get s.now cacheKey with
  | some cachedData => (.ok cachedData, s)
  | none =>
    let params : Values := []
    let params := params.Add "team" (sprintD manchesterUnitedID)
    let params := params.Add "next" "1"
    let params := params.Add "timezone" "Australia/Perth"
    let url := rapidapiBaseUrl ++ "/fixtures?" ++ params.Encode
    let req : Request := ⟨"GET", url, []⟩
    match m.httpClient.do env req s with
    | (.error err, s) => (.error err, s)
    | (.ok data, s) =>
      match env.Unmarshal data with
      | .error err => (.error err, s)
      | .ok res =>
        (.ok res, { s with cache := s.cache.Set s.now cacheKey res DefaultExpiration })

/-- Go: `model.getNextFiveMatches` (500-530). -/
def getNextFiveMatches {lib : ListLib} (m : model lib) (env : Env) (s : State) :
    Except String fixtureResponse × State :=
  let cacheKey := "nextFiveMatches"
  match s.cache.Get s.now cacheKey with
  | some cachedData => (.ok cachedData, s)
  | none =>
    let params : Values := []
    let params := params.Add "team" (sprintD manchesterUnitedID)
    let params := params.Add "next" "5"
    let params := params.Add "timezone" "Australia/Perth"
    let url := rapidapiBaseUrl ++ "/fixtures?" ++ params.Encode
    let req : Request := ⟨"GET", url, []⟩
    match m.httpClient.do env req s with
    | (.error err, s) => (.error err, s)
    | (.ok data, s) =>
      match env.Unmarshal data with
      | .error err => (.error err, s)
      | .ok res =>
        (.ok res, { s with cache := s.cache.Set s.now cacheKey res DefaultExpiration })

/-! ## `model.View` (120-249) -/

/-- The arm `case string(lastMatch)` of `View` after its query (132-154). -/
def lastMatchCase (tl : TimeLib) (q : Except String fixtureResponse) : String :=
  match q with
  | .error err => err
  | .ok res =>
    match res.Response with
    | [] => "Match not found."
    | r :: _ =>
      match tl.Parse r.Fixture.Date with
      | .error err => err
      | .ok t =>
        let formatted := tl.Format t
        if isManUtdHomeMatch r then
          "[Home]  " ++ (formatted ++ "  ->  ")
            ++ (r.Teams.Home.Name ++ " (" ++ sprintD r.Goals.Home ++ ") vs "
                ++ r.Teams.Away.Name ++ " (" ++ sprintD r.Goals.Away ++ ")")
            ++ ("  [" ++ r.League.Name ++ "]\n")
        else
          "[Away]  " ++ (formatted ++ "  ->  ")
            ++ (r.Teams.Home.Name ++ " (" ++ sprintD r.Goals.Home ++ ") vs "
                ++ r.Teams.Away.Name ++ " (" ++ sprintD r.Goals.Away ++ ")")
            ++ ("  [" ++ r.League.Name ++ "]\n")

/-- The loop `for _, r := range res.Response` of the arm `lastFiveMatches`
(170-182); `rightPanel` is the text built so far, and `break switchCase` leaves
with the error text alone. -/
def lastFiveLoop (tl : TimeLib) : List response → String → String
  | [], rightPanel => rightPanel
  | r :: rest, rightPanel =>
    match tl.Parse r.Fixture.Date with
    | .error err => err
    | .ok t =>
      let formatted := tl.Format t
      if isManUtdHomeMatch r then
        lastFiveLoop tl rest
          (rightPanel ++ "[Home]  " ++ (formatted ++ "  ->  ")
            ++ (r.Teams.Home.Name ++ " (" ++ sprintD r.Goals.Home ++ ") vs "
                ++ r.Teams.Away.Name ++ " (" ++ sprintD r.Goals.Away ++ ")")
            ++ ("  [" ++ r.League.Name ++ "]\n"))
      else
        lastFiveLoop tl rest
          (rightPanel ++ "[Away]  " ++ (formatted ++ "  ->  ")
            ++ (r.Teams.Home.Name ++ " (" ++ sprintD r.Goals.Home ++ ") vs "
                ++ r.Teams.Away.Name ++ " (" ++ sprintD r.Goals.Away ++ ")")
            ++ ("  [" ++ r.League.Name ++ "]\n"))

/-- The arm `case string(lastFiveMatches)` of `View` after its query (160-182). -/
def lastFiveMatchesCase (tl : TimeLib) (q : Except String fixtureResponse) : String :=
  match q with
  | .error err => err
  | .ok res =>
    if res.Response.length = 0 then "Matches not found."
    else lastFiveLoop tl res.Response ""

/-- The arm `case string(nextMatch)` of `View` after its query (188-210). -/
def nextMatchCase (tl : TimeLib) (q : Except String fixtureResponse) : String :=
  match q with
  | .error err => err
  | .ok res =>
    match res.Response with
    | [] => "Match found."
    | r :: _ =>
      match tl.Parse r.Fixture.Date with
      | .error err => err
      | .ok t =>
        let formatted := tl.Format t
        if isManUtdHomeMatch r then
          "[Home]  " ++ (formatted ++ "  ->  ")
            ++ (r.Teams.Home.Name ++ " vs " ++ r.Teams.Away.Name)
            ++ ("  [" ++ r.League.Name ++ "]\n")
        else
          "[Away]  " ++ (formatted ++ "  ->  ")
            ++ (r.Teams.Home.Name ++ " vs " ++ r.Teams.Away.Name)
            ++ ("  [" ++ r.League.Name ++ "]\n")

/-- The loop of the arm `nextFiveMatches` (226-239). -/
def nextFiveLoop (tl : TimeLib) : List response → String → String
  | [], rightPanel => rightPanel
  | r :: rest, rightPanel =>
    match tl.Parse r.Fixture.Date with
    | .error err => err
    | .ok t =>
      let formatted := tl.Format t
      if isManUtdHomeMatch r then
        nextFiveLoop tl rest
          (rightPanel ++ "[Home]  " ++ (formatted ++ "  ->  ")
            ++ (r.Teams.Home.Name ++ " vs " ++ r.Teams.Away.Name)
            ++ ("  [" ++ r.League.Name ++ "]\n"))
      else
        nextFiveLoop tl rest
          (rightPanel ++ "[Away]  " ++ (formatted ++ "  ->  ")
            ++ (r.Teams.Home.Name ++ " vs " ++ r.Teams.Away.Name)
            ++ ("  [" ++ r.League.Name ++ "]\n"))

/-- The arm `case string(nextFiveMatches)` of `View` after its query (216-239). -/
def nextFiveMatchesCase (tl : TimeLib) (q : Except String fixtureResponse) : String :=
  match q with
  | .error err => err
  | .ok res =>
    if res.Response.length = 0 then "Matches not found."
    else nextFiveLoop tl res.Response ""

/-- The variable `rightPanel` of `View` when the `switch` is left (125-241),
before `rightPanelStyle.Render`, together with the world the query leaves. -/
def rightPanel {lib : ListLib} (tl : TimeLib) (m : model lib) (env : Env) (s : State) :
    String × State :=
  let choice := m.choice
  if choice = lastMatch then
    let (q, s) := getLastMatch m env s
    (lastMatchCase tl q, s)
  else if choice = lastFiveMatches then
    let (q, s) := getLastFiveMatches m env s
    (lastFiveMatchesCase tl q, s)
  else if choice = nextMatch then
    let (q, s) := getNextMatch m env s
    (nextMatchCase tl q, s)
  else if choice = nextFiveMatches then
    let (q, s) := getNextFiveMatches m env s
    (nextFiveMatchesCase tl q, s)
  else ("", s)

/-- The `lipgloss` renderers that `View` applies to finished text. -/
structure Styles where
  quitTextStyle : String → String
  rightPanelStyle : String → String
  JoinHorizontal : String → String → String

/-- Go: `model.View` (120-249). -/
def View {lib : ListLib} (tl : TimeLib) (ui : Styles) (m : model lib) (env : Env)
    (s : State) : String × State :=
  let leftPanel := lib.View m.list
  let (panel, s) := rightPanel tl m env s
  if m.quitting then (ui.quitTextStyle "Glory Glory Man United.", s)
  else (ui.JoinHorizontal leftPanel (ui.rightPanelStyle panel), s)

/-- Go: the cache that `main` creates (285). -/
def mainCache : Cache := Cache.New (10 * Minute) (15 * Minute)

/-! ## The four arms of `View`, enumerated -/

/-- The four menu entries as the arms of the `switch` in `View`. -/
inductive Query where
  | lastMatch
  | lastFiveMatches
  | nextMatch
  | nextFiveMatches
deriving DecidableEq, Repr

/-- The menu text that selects the arm. -/
def Query.menu : Query → menuItem
  | .lastMatch => ManUnited.lastMatch
  | .lastFiveMatches => ManUnited.lastFiveMatches
  | .nextMatch => ManUnited.nextMatch
  | .nextFiveMatches => ManUnited.nextFiveMatches

/-- The `cacheKey` of the arm's query. -/
def Query.cacheKey : Query → String
  | .lastMatch => "lastMatch"
  | .lastFiveMatches => "lastFiveMatches"
  | .nextMatch => "nextMatch"
  | .nextFiveMatches => "nextFiveMatches"

/-- The query the arm calls. -/
def Query.get {lib : ListLib} (q : Query) (m : model lib) (env : Env) (s : State) :
    Except String fixtureResponse × State :=
  match q with
  | .lastMatch => getLastMatch m env s
  | .lastFiveMatches => getLastFiveMatches m env s
  | .nextMatch => getNextMatch m env s
  | .nextFiveMatches => getNextFiveMatches m env s

/-- The text the arm computes from the outcome of its query. -/
def Query.case (q : Query) (tl : TimeLib) (r : Except String fixtureResponse) : String :=
  match q with
  | .lastMatch => lastMatchCase tl r
  | .lastFiveMatches => lastFiveMatchesCase tl r
  | .nextMatch => nextMatchCase tl r
  | .nextFiveMatches => nextFiveMatchesCase tl r

/-- The parameters the query adds to its `url.Values`, in the order of the calls. -/
def Query.params : Query → Values
  | .lastMatch =>
    [("team", sprintD manchesterUnitedID), ("last", "1"), ("status", "FT"),
      ("timezone", "Australia/Perth")]
  | .lastFiveMatches =>
    [("team", sprintD manchesterUnitedID), ("last", "5"), ("status", "FT"),
      ("timezone", "Australia/Perth")]
  | .nextMatch =>
    [("team", sprintD manchesterUnitedID), ("next", "1"), ("timezone", "Australia/Perth")]
  | .nextFiveMatches =>
    [("team", sprintD manchesterUnitedID), ("next", "5"), ("timezone", "Australia/Perth")]

/-- The request the query passes to `httpClient.do`. -/
def Query.request (q : Query) : Request :=
  ⟨"GET", rapidapiBaseUrl ++ "/fixtures?" ++ q.params.Encode, []⟩

/-- The request as `httpClient.do` hands it to the transport, headers added. -/
def Query.wire (q : Query) (c : httpClient) : Request :=
  (q.request.HeaderAdd "x-rapidapi-host" c.rapidapiHost).HeaderAdd
    "x-rapidapi-key" c.rapidapiKey

/-- The two queries for five matches. -/
def Query.isFive : Query → Bool
  | .lastFiveMatches => true
  | .nextFiveMatches => true
  | _ => false

/-- The single-match query of the same kind (last, next). -/
def Query.single : Query → Query
  | .lastMatch => .lastMatch
  | .lastFiveMatches => .lastMatch
  | .nextMatch => .nextMatch
  | .nextFiveMatches => .nextMatch

/-- Go: `strings.HasPrefix(text, pre)`. -/
def beginsWith (text pre : String) : Prop := pre.data <+: text.data

instance (text pre : String) : Decidable (beginsWith text pre) :=
  inferInstanceAs (Decidable (pre.data <+: text.data))

/-- The cache has nothing fresh under `k` at time `now`: no item, or an item whose
expiry lies in the past. -/
def Cache.stale (c : Cache) (now : Int) (k : String) : Prop :=
  match c.items k with
  | none => True
  | some item => 0 < item.Expiration ∧ item.Expiration < now

instance (c : Cache) (now : Int) (k : String) : Decidable (c.stale now k) := by
  unfold Cache.stale
  cases c.items k <;> infer_instance

/-- Every date of the list parses. -/
def allParse (tl : TimeLib) (rs : List response) : Prop :=
  ∀ r ∈ rs, ∃ t, tl.Parse r.Fixture.Date = .ok t

/-! ## Sample inputs -/

/-- A four-entry list with a cursor, standing for the `bubbles/list` widget. -/
def cursorList : ListLib where
  Model := Nat
  SetWidth := fun l _ => l
  SelectedItem := fun l => getMenus.get? l
  Update := fun l msg =>
    match msg with
    | .KeyMsg "down" => (min (l + 1) 3, .nil)
    | .KeyMsg "up" => (l - 1, .nil)
    | _ => (l, .nil)
  View := fun l => toString l

/-- A stand-in for the text of a `*time.ParseError`. -/
def sampleErrText (value : String) : String := "parsing time \"" ++ value ++ "\""

def sampleTime : TimeLib := goTime sampleErrText

/-- The fixture of the spec: Man United at home to Liverpool, 2-1. -/
def homeFixture : response :=
  { Fixture := ⟨1, "2024-03-16T17:30:00+08:00", ⟨"Old Trafford", "Manchester"⟩, "Australia/Perth"⟩
    League := ⟨39, "Premier League"⟩
    Teams := ⟨⟨33, "Man United"⟩, ⟨40, "Liverpool"⟩⟩
    Goals := ⟨2, 1⟩ }

/-- An away fixture. -/
def awayFixture : response :=
  { Fixture := ⟨2, "2024-04-04T03:15:00+08:00", ⟨"Stamford Bridge", "London"⟩, "Australia/Perth"⟩
    League := ⟨39, "Premier League"⟩
    Teams := ⟨⟨49, "Chelsea"⟩, ⟨33, "Man United"⟩⟩
    Goals := ⟨4, 3⟩ }

/-- A fixture whose date is not RFC3339. -/
def badFixture : response :=
  { awayFixture with Fixture := ⟨3, "16/03/2024", ⟨"Anfield", "Liverpool"⟩, "Australia/Perth"⟩ }

/-- A transport that always fails. -/
def offline : Env :=
  { clientDo := fun _ => .error "dial tcp: connection refused"
    elapsed := fun _ => 1000
    Unmarshal := fun _ => .error "unexpected end of JSON input" }

/-- A transport that answers 200 with a body that decodes to `res`. -/
def online (res : fixtureResponse) : Env :=
  { clientDo := fun _ => .ok ⟨200, .ok "body"⟩
    elapsed := fun _ => 1000
    Unmarshal := fun _ => .ok res }

/-- The cache of `main` holding `rs` under `k`, stored at time 0; the clock reads
`now`. -/
def cachedState (k : String) (rs : List response) (now : Int) : State :=
  { cache := mainCache.Set 0 k ⟨rs⟩ DefaultExpiration, now := now, sent := [] }

/-- The world at start-up: the empty cache of `main`. -/
def freshState (now : Int) : State :=
  { cache := mainCache, now := now, sent := [] }

def sampleModel (choice : String) (quitting : Bool) : model cursorList :=
  { list := (1 : Nat), choice := choice, quitting := quitting,
    httpClient := newHttpClient "api-football-v1.p.rapidapi.com" "secret" }


/-! ## Shared lemmas -/

theorem Query.get_eq {lib : ListLib} (q : Query) (m : model lib) (env : Env) (s : State) :
    q.get m env s =
      match s.cache.Get s.now q.cacheKey with
      | some cachedData => (.ok cachedData, s)
      | none =>
        match m.httpClient.do env q.request s with
        | (.error err, s) => (.error err, s)
        | (.ok data, s) =>
          match env.Unmarshal data with
          | .error err => (.error err, s)
          | .ok res =>
            (.ok res, { s with cache := s.cache.Set s.now q.cacheKey res DefaultExpiration }) := by
  cases q <;> rfl

theorem rightPanel_of_menu {lib : ListLib} (tl : TimeLib) (q : Query) (m : model lib)
    (env : Env) (s : State) (h : m.choice = q.menu) :
    rightPanel tl m env s = (q.case tl (q.get m env s).1, (q.get m env s).2) := by
  cases q <;>
    simp [rightPanel, h, Query.menu, Query.case, Query.get, lastMatch, lastFiveMatches,
      nextMatch, nextFiveMatches]

theorem join_cons (a : String) (l : List String) :
    String.join (a :: l) = a ++ String.join l := by
  apply String.ext
  simp [String.data_join]

theorem lastFiveLoop_step (tl : TimeLib) (r : response) (rest : List response)
    (acc : String) (t : tl.Time) (ht : tl.Parse r.Fixture.Date = .ok t) :
    lastFiveLoop tl (r :: rest) acc
      = lastFiveLoop tl rest (acc ++ lastMatchCase tl (.ok ⟨[r]⟩)) := by
  by_cases hh : isManUtdHomeMatch r = true
  · simp only [lastFiveLoop, ht, hh, lastMatchCase, if_true, String.append_assoc]
  · simp only [lastFiveLoop, ht, hh, lastMatchCase, String.append_assoc]
    simp

theorem lastFiveLoop_ok (tl : TimeLib) (rs : List response) (acc : String)
    (h : allParse tl rs) :
    lastFiveLoop tl rs acc
      = acc ++ String.join (rs.map fun r => lastMatchCase tl (.ok ⟨[r]⟩)) := by
  induction rs generalizing acc with
  | nil => simp [lastFiveLoop, String.join]
  | cons r rest ih =>
    obtain ⟨t, ht⟩ := h r (List.mem_cons_self _ _)
    have hrest : allParse tl rest := fun x hx => h x (List.mem_cons_of_mem _ hx)
    rw [lastFiveLoop_step tl r rest acc t ht, ih _ hrest, List.map_cons, join_cons,
      String.append_assoc]

theorem nextFiveLoop_step (tl : TimeLib) (r : response) (rest : List response)
    (acc : String) (t : tl.Time) (ht : tl.Parse r.Fixture.Date = .ok t) :
    nextFiveLoop tl (r :: rest) acc
      = nextFiveLoop tl rest (acc ++ nextMatchCase tl (.ok ⟨[r]⟩)) := by
  by_cases hh : isManUtdHomeMatch r = true
  · simp only [nextFiveLoop, ht, hh, nextMatchCase, if_true, String.append_assoc]
  · simp only [nextFiveLoop, ht, hh, nextMatchCase, String.append_assoc]
    simp

theorem nextFiveLoop_ok (tl : TimeLib) (rs : List response) (acc : String)
    (h : allParse tl rs) :
    nextFiveLoop tl rs acc
      = acc ++ String.join (rs.map fun r => nextMatchCase tl (.ok ⟨[r]⟩)) := by
  induction rs generalizing acc with
  | nil => simp [nextFiveLoop, String.join]
  | cons r rest ih =>
    obtain ⟨t, ht⟩ := h r (List.mem_cons_self _ _)
    have hrest : allParse tl rest := fun x hx => h x (List.mem_cons_of_mem _ hx)
    rw [nextFiveLoop_step tl r rest acc t ht, ih _ hrest, List.map_cons, join_cons,
      String.append_assoc]

theorem lastFiveLoop_err (tl : TimeLib) (pre : List response) (r : response)
    (post : List response) (acc e : String) (hpre : allParse tl pre)
    (hr : tl.Parse r.Fixture.Date = .error e) :
    lastFiveLoop tl (pre ++ r :: post) acc = e := by
  induction pre generalizing acc with
  | nil => simp [lastFiveLoop, hr]
  | cons x rest ih =>
    obtain ⟨t, ht⟩ := hpre x (List.mem_cons_self _ _)
    have hrest : allParse tl rest := fun y hy => hpre y (List.mem_cons_of_mem _ hy)
    by_cases hh : isManUtdHomeMatch x = true
    · simp only [List.cons_append, lastFiveLoop, ht, hh, if_true]
      exact ih _ hrest
    · simp only [List.cons_append, lastFiveLoop, ht, hh, if_false]
      exact ih _ hrest

theorem nextFiveLoop_err (tl : TimeLib) (pre : List response) (r : response)
    (post : List response) (acc e : String) (hpre : allParse tl pre)
    (hr : tl.Parse r.Fixture.Date = .error e) :
    nextFiveLoop tl (pre ++ r :: post) acc = e := by
  induction pre generalizing acc with
  | nil => simp [nextFiveLoop, hr]
  | cons x rest ih =>
    obtain ⟨t, ht⟩ := hpre x (List.mem_cons_self _ _)
    have hrest : allParse tl rest := fun y hy => hpre y (List.mem_cons_of_mem _ hy)
    by_cases hh : isManUtdHomeMatch x = true
    · simp only [List.cons_append, nextFiveLoop, ht, hh, if_true]
      exact ih _ hrest
    · simp only [List.cons_append, nextFiveLoop, ht, hh, if_false]
      exact ih _ hrest


theorem beginsWith_append (a b c : String) (h : a.data = b.data ++ c.data) :
    ∀ x : String, beginsWith (a ++ x) b := by
  intro x
  unfold beginsWith
  rw [String.data_append, h, List.append_assoc]
  exact List.prefix_append _ _

theorem isManUtdHomeMatch_iff (r : response) :
    isManUtdHomeMatch r = true ↔ r.Teams.Home.ID = 33 := by
  simp [isManUtdHomeMatch, manchesterUnitedID]

theorem single_line_tag (tl : TimeLib) (q : Query) (r : response) (t : tl.Time)
    (ht : tl.Parse r.Fixture.Date = .ok t) :
    (beginsWith (q.single.case tl (.ok ⟨[r]⟩)) "[Home]" ↔ r.Teams.Home.ID = 33)
      ∧ (r.Teams.Home.ID ≠ 33 → beginsWith (q.single.case tl (.ok ⟨[r]⟩)) "[Away]") := by
  have hH : ∀ x : String, beginsWith ("[Home]  " ++ x) "[Home]" :=
    beginsWith_append _ _ "  " rfl
  have hA : ∀ x : String, beginsWith ("[Away]  " ++ x) "[Away]" :=
    beginsWith_append _ _ "  " rfl
  have hN : ∀ x : String, ¬ beginsWith ("[Away]  " ++ x) "[Home]" := by
    intro x hx
    unfold beginsWith at hx
    rw [String.data_append] at hx
    have h1 : "[Away]  ".data = '[' :: 'A' :: "way]  ".data := rfl
    have h2 : "[Home]".data = '[' :: 'H' :: "ome]".data := rfl
    rw [h1, h2] at hx
    simp at hx
  by_cases hh : r.Teams.Home.ID = 33
  · have hb : isManUtdHomeMatch r = true := (isManUtdHomeMatch_iff r).2 hh
    cases q <;>
      simp only [Query.single, Query.case, lastMatchCase, nextMatchCase, ht, hb, if_true,
        String.append_assoc] <;>
      exact ⟨⟨fun _ => hh, fun _ => hH _⟩, fun h => absurd hh h⟩
  · have hb : ¬ isManUtdHomeMatch r = true := fun h => hh ((isManUtdHomeMatch_iff r).1 h)
    cases q <;>
      simp only [Query.single, Query.case, lastMatchCase, nextMatchCase, ht, hb, if_false,
        String.append_assoc] <;>
      exact ⟨⟨fun h => absurd h (hN _), fun h => absurd h hh⟩, fun _ => hA _⟩

theorem five_case_ok (tl : TimeLib) (q : Query) (rs : List response)
    (hq : q.isFive = true) (hall : allParse tl rs) (hne : rs ≠ []) :
    q.case tl (.ok ⟨rs⟩) = String.join (rs.map fun r => q.single.case tl (.ok ⟨[r]⟩)) := by
  have hlen : ¬ rs.length = 0 := by
    intro h
    exact hne (List.length_eq_zero.mp h)
  cases q with
  | lastMatch => exact absurd hq (by decide)
  | nextMatch => exact absurd hq (by decide)
  | lastFiveMatches =>
    simp only [Query.case, Query.single, lastFiveMatchesCase, hlen, if_false]
    rw [lastFiveLoop_ok tl rs "" hall, String.empty_append]
  | nextFiveMatches =>
    simp only [Query.case, Query.single, nextFiveMatchesCase, hlen, if_false]
    rw [nextFiveLoop_ok tl rs "" hall, String.empty_append]

theorem five_case_err (tl : TimeLib) (q : Query) (pre : List response) (r : response)
    (post : List response) (e : String) (hq : q.isFive = true) (hpre : allParse tl pre)
    (hr : tl.Parse r.Fixture.Date = .error e) :
    q.case tl (.ok ⟨pre ++ r :: post⟩) = e := by
  have hlen : ¬ (pre ++ r :: post).length = 0 := by simp
  cases q with
  | lastMatch => exact absurd hq (by decide)
  | nextMatch => exact absurd hq (by decide)
  | lastFiveMatches =>
    simp only [Query.case, lastFiveMatchesCase, hlen, if_false]
    exact lastFiveLoop_err tl pre r post "" e hpre hr
  | nextFiveMatches =>
    simp only [Query.case, nextFiveMatchesCase, hlen, if_false]
    exact nextFiveLoop_err tl pre r post "" e hpre hr

theorem first_bad_date (tl : TimeLib) (rs : List response)
    (hbad : ∃ r ∈ rs, ∃ e, tl.Parse r.Fixture.Date = .error e) :
    ∃ pre r post e, rs = pre ++ r :: post ∧ allParse tl pre
      ∧ tl.Parse r.Fixture.Date = .error e := by
  induction rs with
  | nil =>
    obtain ⟨r, hr, _⟩ := hbad
    exact absurd hr (List.not_mem_nil r)
  | cons x rest ih =>
    cases hx : tl.Parse x.Fixture.Date with
    | error e => exact ⟨[], x, rest, e, rfl, fun y hy => absurd hy (List.not_mem_nil y), hx⟩
    | ok t =>
      have hrest : ∃ r ∈ rest, ∃ e, tl.Parse r.Fixture.Date = .error e := by
        obtain ⟨r, hr, e, he⟩ := hbad
        rcases List.mem_cons.mp hr with h | h
        · rw [h, hx] at he
          cases he
        · exact ⟨r, h, e, he⟩
      obtain ⟨pre, r, post, e, hrs, hpre, hr⟩ := ih hrest
      refine ⟨x :: pre, r, post, e, by rw [hrs]; rfl, ?_, hr⟩
      intro y hy
      rcases List.mem_cons.mp hy with h | h
      · exact h ▸ ⟨t, hx⟩
      · exact hpre y h

theorem single_case_head (tl : TimeLib) (q : Query) (r : response) (rest : List response)
    (hq : q.isFive = false) :
    q.case tl (.ok ⟨r :: rest⟩) = q.single.case tl (.ok ⟨[r]⟩) := by
  cases q with
  | lastMatch => rfl
  | nextMatch => rfl
  | lastFiveMatches => exact absurd hq (by decide)
  | nextFiveMatches => exact absurd hq (by decide)


/-! ## Right-panel text -/

/-- C1 (evaluation at the failing input): with "Next match" committed and the query
answering with an empty list, the right-panel text of `View` is "Match found.", not
"Match not found."; the other three arms give their "not found" message on the same
empty answer. -/
theorem C1_next_match_empty_text :
    (getNextMatch (sampleModel nextMatch false) offline (cachedState "nextMatch" [] 5)).1
        = .ok ⟨[]⟩
      ∧ (rightPanel sampleTime (sampleModel nextMatch false) offline
          (cachedState "nextMatch" [] 5)).1 = "Match found."
      ∧ (rightPanel sampleTime (sampleModel nextMatch false) offline
          (cachedState "nextMatch" [] 5)).1 ≠ "Match not found."
      ∧ (rightPanel sampleTime (sampleModel lastMatch false) offline
          (cachedState "lastMatch" [] 5)).1 = "Match not found."
      ∧ (rightPanel sampleTime (sampleModel lastFiveMatches false) offline
          (cachedState "lastFiveMatches" [] 5)).1 = "Matches not found."
      ∧ (rightPanel sampleTime (sampleModel nextFiveMatches false) offline
          (cachedState "nextFiveMatches" [] 5)).1 = "Matches not found." :=
  ⟨rfl, by decide, by decide, by decide, by decide, by decide⟩

/-- C2 (as amended): with "Last match" committed and the query answering with the
single record of the spec, the right-panel text of `View` before styling is the line
of the spec followed by one newline. -/
theorem C2_last_match_line (errText : String → String) {lib : ListLib} (m : model lib)
    (env : Env) (s : State) (r : response)
    (hc : m.choice = lastMatch)
    (hq : (getLastMatch m env s).1 = .ok ⟨[r]⟩)
    (hd : r.Fixture.Date = "2024-03-16T17:30:00+08:00")
    (hh : r.Teams.Home = ⟨33, "Man United"⟩)
    (ha : r.Teams.Away.Name = "Liverpool")
    (hg : r.Goals = ⟨2, 1⟩)
    (hl : r.League.Name = "Premier League") :
    (rightPanel (goTime errText) m env s).1
      = "[Home]  2024 Mar 16 5:30 PM  ->  Man United (2) vs Liverpool (1)  [Premier League]\n" := by
  rw [rightPanel_of_menu (goTime errText) .lastMatch m env s hc]
  show lastMatchCase (goTime errText) (getLastMatch m env s).1 = _
  rw [hq]
  obtain ⟨⟨fid, date, ven, tz⟩, ⟨lid, lname⟩, ⟨home, ⟨aid, aname⟩⟩, gs⟩ := r
  simp only at hd hh ha hg hl
  subst hd hh ha hg hl
  rfl

/-- C2 (witness): the amended statement at the sample fixture held in the cache. -/
theorem C2_last_match_line_witness :
    (rightPanel (goTime sampleErrText) (sampleModel lastMatch false) offline
        (cachedState "lastMatch" [homeFixture] 5)).1
      = "[Home]  2024 Mar 16 5:30 PM  ->  Man United (2) vs Liverpool (1)  [Premier League]\n" :=
  C2_last_match_line sampleErrText (sampleModel lastMatch false) offline
    (cachedState "lastMatch" [homeFixture] 5) homeFixture rfl rfl rfl rfl rfl rfl rfl

/-- C2 (counterexample): at the sample fixture the query answers with the single
record, and the right-panel text is not the line of the spec: it ends in a newline. -/
theorem C2_last_match_counterexample :
    (getLastMatch (sampleModel lastMatch false) offline
        (cachedState "lastMatch" [homeFixture] 5)).1 = .ok ⟨[homeFixture]⟩
      ∧ (rightPanel sampleTime (sampleModel lastMatch false) offline
          (cachedState "lastMatch" [homeFixture] 5)).1
        ≠ "[Home]  2024 Mar 16 5:30 PM  ->  Man United (2) vs Liverpool (1)  [Premier League]" :=
  ⟨rfl, by decide⟩

/-- C3 (as amended): with "Next match" committed and the query answering with the
single record of the spec, the right-panel text of `View` before styling has no
score and is the line of the spec followed by one newline. -/
theorem C3_next_match_line (errText : String → String) {lib : ListLib} (m : model lib)
    (env : Env) (s : State) (r : response)
    (hc : m.choice = nextMatch)
    (hq : (getNextMatch m env s).1 = .ok ⟨[r]⟩)
    (hd : r.Fixture.Date = "2024-03-16T17:30:00+08:00")
    (hh : r.Teams.Home = ⟨33, "Man United"⟩)
    (ha : r.Teams.Away.Name = "Liverpool")
    (hl : r.League.Name = "Premier League") :
    (rightPanel (goTime errText) m env s).1
      = "[Home]  2024 Mar 16 5:30 PM  ->  Man United vs Liverpool  [Premier League]\n" := by
  rw [rightPanel_of_menu (goTime errText) .nextMatch m env s hc]
  show nextMatchCase (goTime errText) (getNextMatch m env s).1 = _
  rw [hq]
  obtain ⟨⟨fid, date, ven, tz⟩, ⟨lid, lname⟩, ⟨home, ⟨aid, aname⟩⟩, gs⟩ := r
  simp only at hd hh ha hl
  subst hd hh ha hl
  rfl

/-- C3 (witness): the amended statement at the sample fixture held in the cache. -/
theorem C3_next_match_line_witness :
    (rightPanel (goTime sampleErrText) (sampleModel nextMatch false) offline
        (cachedState "nextMatch" [homeFixture] 5)).1
      = "[Home]  2024 Mar 16 5:30 PM  ->  Man United vs Liverpool  [Premier League]\n" :=
  C3_next_match_line sampleErrText (sampleModel nextMatch false) offline
    (cachedState "nextMatch" [homeFixture] 5) homeFixture rfl rfl rfl rfl rfl rfl

/-- C3 (counterexample): at the sample fixture the query answers with the single
record, and the right-panel text is not the line of the spec: it ends in a newline. -/
theorem C3_next_match_counterexample :
    (getNextMatch (sampleModel nextMatch false) offline
        (cachedState "nextMatch" [homeFixture] 5)).1 = .ok ⟨[homeFixture]⟩
      ∧ (rightPanel sampleTime (sampleModel nextMatch false) offline
          (cachedState "nextMatch" [homeFixture] 5)).1
        ≠ "[Home]  2024 Mar 16 5:30 PM  ->  Man United vs Liverpool  [Premier League]" :=
  ⟨rfl, by decide⟩


/-- C4: for a record `r` whose date parses and each of the four arms, the line the
arm renders for `r` (the text of the single-match arm of the same kind on `r`
alone) begins with "[Home]" exactly when the home team id is 33 and with "[Away]"
for every other id; a single-match arm shows that line for the first record, and a
five-match arm shows it between the lines of the records before and after `r`. -/
theorem C4_home_away_tag (tl : TimeLib) {lib : ListLib} (m : model lib) (env : Env)
    (s : State) (q : Query) (pre : List response) (r : response) (post : List response)
    (t : tl.Time)
    (hc : m.choice = q.menu)
    (hget : (q.get m env s).1 = .ok ⟨pre ++ r :: post⟩)
    (ht : tl.Parse r.Fixture.Date = .ok t)
    (hsingle : q.isFive = false → pre = [])
    (hpre : allParse tl pre)
    (hpost : q.isFive = true → allParse tl post) :
    (beginsWith (q.single.case tl (.ok ⟨[r]⟩)) "[Home]" ↔ r.Teams.Home.ID = 33)
      ∧ (isManUtdHomeMatch r = true ↔ r.Teams.Home.ID = 33)
      ∧ (r.Teams.Home.ID ≠ 33 → beginsWith (q.single.case tl (.ok ⟨[r]⟩)) "[Away]")
      ∧ (rightPanel tl m env s).1
          = String.join (pre.map fun x => q.single.case tl (.ok ⟨[x]⟩))
            ++ q.single.case tl (.ok ⟨[r]⟩)
            ++ (if q.isFive = true
                then String.join (post.map fun x => q.single.case tl (.ok ⟨[x]⟩))
                else "") := by
  refine ⟨(single_line_tag tl q r t ht).1, isManUtdHomeMatch_iff r,
    (single_line_tag tl q r t ht).2, ?_⟩
  rw [rightPanel_of_menu tl q m env s hc, hget]
  by_cases h5 : q.isFive = true
  · have hall : allParse tl (pre ++ r :: post) := by
      intro x hx
      rcases List.mem_append.mp hx with hx | hx
      · exact hpre x hx
      · rcases List.mem_cons.mp hx with hx | hx
        · exact hx ▸ ⟨t, ht⟩
        · exact hpost h5 x hx
    rw [five_case_ok tl q _ h5 hall (by simp), if_pos h5]
    apply String.ext
    simp [String.data_join]
  · have h1 : q.isFive = false := by simpa using h5
    rw [hsingle h1, if_neg h5]
    simp only [List.nil_append, List.map_nil, String.join, List.foldl_nil,
      String.empty_append, String.append_empty]
    exact single_case_head tl q r post h1

/-- C4 (witness): the away fixture as the second of two records of "Last 5 matches". -/
theorem C4_home_away_tag_witness :
    (beginsWith (lastMatchCase sampleTime (.ok ⟨[awayFixture]⟩)) "[Home]"
        ↔ awayFixture.Teams.Home.ID = 33)
      ∧ (isManUtdHomeMatch awayFixture = true ↔ awayFixture.Teams.Home.ID = 33)
      ∧ (awayFixture.Teams.Home.ID ≠ 33
          → beginsWith (lastMatchCase sampleTime (.ok ⟨[awayFixture]⟩)) "[Away]")
      ∧ (rightPanel sampleTime (sampleModel lastFiveMatches false) offline
            (cachedState "lastFiveMatches" [homeFixture, awayFixture] 5)).1
          = String.join ([homeFixture].map fun x => lastMatchCase sampleTime (.ok ⟨[x]⟩))
            ++ lastMatchCase sampleTime (.ok ⟨[awayFixture]⟩)
            ++ (if Query.lastFiveMatches.isFive = true
                then String.join (([] : List response).map fun x =>
                  lastMatchCase sampleTime (.ok ⟨[x]⟩))
                else "") :=
  C4_home_away_tag sampleTime (sampleModel lastFiveMatches false) offline
    (cachedState "lastFiveMatches" [homeFixture, awayFixture] 5) .lastFiveMatches
    [homeFixture] awayFixture [] ⟨1712171700, 28800⟩ rfl rfl rfl (fun h => absurd h (by decide))
    (fun x hx => by
      rw [List.mem_singleton] at hx
      subst hx
      exact ⟨⟨1710581400, 28800⟩, rfl⟩)
    (fun _ x hx => absurd hx (List.not_mem_nil x))

/-- C5: for the two five-match arms and a non-empty answer in which some date does
not parse, the answer splits at the first such record `r` (every date before it
parses), and the right-panel text of `View` is exactly the text of the parse error
of `r`: the lines built for the records before `r` are dropped. -/
theorem C5_bad_date_replaces_batch (tl : TimeLib) {lib : ListLib} (m : model lib)
    (env : Env) (s : State) (q : Query) (rs : List response)
    (h5 : q.isFive = true)
    (hc : m.choice = q.menu)
    (hget : (q.get m env s).1 = .ok ⟨rs⟩)
    (hbad : ∃ r ∈ rs, ∃ e, tl.Parse r.Fixture.Date = .error e) :
    (∃ pre r post e, rs = pre ++ r :: post ∧ allParse tl pre
        ∧ tl.Parse r.Fixture.Date = .error e ∧ (rightPanel tl m env s).1 = e)
      ∧ ∀ pre r post e, rs = pre ++ r :: post → allParse tl pre →
          tl.Parse r.Fixture.Date = .error e → (rightPanel tl m env s).1 = e := by
  have hall : ∀ pre r post e, rs = pre ++ r :: post → allParse tl pre →
      tl.Parse r.Fixture.Date = .error e → (rightPanel tl m env s).1 = e := by
    intro pre r post e hrs hpre hr
    rw [rightPanel_of_menu tl q m env s hc, hget, hrs]
    exact five_case_err tl q pre r post e h5 hpre hr
  refine ⟨?_, hall⟩
  obtain ⟨pre, r, post, e, hrs, hpre, hr⟩ := first_bad_date tl rs hbad
  exact ⟨pre, r, post, e, hrs, hpre, hr, hall pre r post e hrs hpre hr⟩

/-- C5 (witness): a malformed date in the second of three records of "Next 5
matches". -/
theorem C5_bad_date_replaces_batch_witness :
    (rightPanel sampleTime (sampleModel nextFiveMatches false) offline
        (cachedState "nextFiveMatches" [homeFixture, badFixture, awayFixture] 5)).1
      = sampleErrText "16/03/2024" :=
  (C5_bad_date_replaces_batch sampleTime (sampleModel nextFiveMatches false) offline
    (cachedState "nextFiveMatches" [homeFixture, badFixture, awayFixture] 5)
    .nextFiveMatches [homeFixture, badFixture, awayFixture] rfl rfl rfl
    ⟨badFixture, by decide, sampleErrText "16/03/2024", rfl⟩).2
    [homeFixture] badFixture [awayFixture] (sampleErrText "16/03/2024") rfl
    (fun x hx => by
      rw [List.mem_singleton] at hx
      subst hx
      exact ⟨⟨1710581400, 28800⟩, rfl⟩)
    rfl

/-- C10: for the two five-match arms, a non-empty answer all of whose dates parse is
rendered as the concatenation, in the order of the answer, of one text per record,
each being the right-panel text that the single-match arm of the same kind computes
when its query answers with that record alone. -/
theorem C10_five_is_concatenation (tl : TimeLib) {lib : ListLib} (m : model lib)
    (env : Env) (s : State) (q : Query) (rs : List response)
    (m1 : response → model lib) (env1 : response → Env) (s1 : response → State)
    (h5 : q.isFive = true)
    (hc : m.choice = q.menu)
    (hget : (q.get m env s).1 = .ok ⟨rs⟩)
    (hne : rs ≠ [])
    (hall : allParse tl rs)
    (h1 : ∀ r ∈ rs, (m1 r).choice = q.single.menu
      ∧ (q.single.get (m1 r) (env1 r) (s1 r)).1 = .ok ⟨[r]⟩) :
    (rightPanel tl m env s).1
      = String.join (rs.map fun r => (rightPanel tl (m1 r) (env1 r) (s1 r)).1) := by
  rw [rightPanel_of_menu tl q m env s hc, hget, five_case_ok tl q rs h5 hall hne]
  show String.join _ = String.join _
  congr 1
  apply List.map_congr_left
  intro r hr
  rw [rightPanel_of_menu tl q.single (m1 r) (env1 r) (s1 r) (h1 r hr).1, (h1 r hr).2]

/-- C10 (witness): two records under "Last 5 matches", each also held alone in the
cache of "Last match". -/
theorem C10_five_is_concatenation_witness :
    (rightPanel sampleTime (sampleModel lastFiveMatches false) offline
        (cachedState "lastFiveMatches" [homeFixture, awayFixture] 5)).1
      = String.join ([homeFixture, awayFixture].map fun r =>
          (rightPanel sampleTime (sampleModel lastMatch false) offline
            (cachedState "lastMatch" [r] 5)).1) :=
  C10_five_is_concatenation sampleTime (sampleModel lastFiveMatches false) offline
    (cachedState "lastFiveMatches" [homeFixture, awayFixture] 5) .lastFiveMatches
    [homeFixture, awayFixture]
    (fun _ => sampleModel lastMatch false) (fun _ => offline)
    (fun r => cachedState "lastMatch" [r] 5)
    rfl rfl rfl (by decide)
    (fun x hx => by
      rcases List.mem_cons.mp hx with hx | hx
      · subst hx
        exact ⟨⟨1710581400, 28800⟩, rfl⟩
      · rw [List.mem_singleton] at hx
        subst hx
        exact ⟨⟨1712171700, 28800⟩, rfl⟩)
    (fun _ _ => ⟨rfl, rfl⟩)


/-! ## Cache and fetch -/

theorem Cache.Get_fresh (c : Cache) (now : Int) (k : String) (item : Item)
    (hitem : c.items k = some item) (hfresh : 0 < item.Expiration → now ≤ item.Expiration) :
    c.Get now k = some item.Object := by
  unfold Cache.Get
  rw [hitem]
  by_cases h : 0 < item.Expiration
  · have := hfresh h
    simp [h]
    omega
  · simp [h]

theorem Cache.Get_stale (c : Cache) (now : Int) (k : String) (h : c.stale now k) :
    c.Get now k = none := by
  unfold Cache.stale at h
  unfold Cache.Get
  cases hi : c.items k with
  | none => rfl
  | some item =>
    rw [hi] at h
    simp [h.1, h.2]

theorem Cache.stale_mono (c : Cache) (now now2 : Int) (k : String) (h : c.stale now k)
    (hle : now ≤ now2) : c.stale now2 k := by
  unfold Cache.stale at h ⊢
  cases hi : c.items k with
  | none => trivial
  | some item =>
    rw [hi] at h
    exact ⟨h.1, by have := h.2; omega⟩

theorem do_state (q : Query) (c : httpClient) (env : Env) (s : State) :
    (c.do env q.request s).2
      = { s with sent := s.sent ++ [q.wire c], now := s.now + env.elapsed (q.wire c) } := by
  unfold httpClient.do Query.wire
  dsimp only
  split
  · rfl
  · split
    · rfl
    · split <;> rfl

theorem do_result (q : Query) (c : httpClient) (env : Env) (s : State) :
    (c.do env q.request s).1 =
      match env.clientDo (q.wire c) with
      | .error err => .error err
      | .ok res =>
        if res.StatusCode ≠ 200 then .error ("unsuccessful request: " ++ (q.wire c).RequestURI)
        else
          match res.Body with
          | .error err => .error err
          | .ok data => .ok data := by
  unfold httpClient.do Query.wire
  dsimp only
  split
  · rfl
  · split
    · rfl
    · split <;> rfl

theorem get_stale {lib : ListLib} (q : Query) (m : model lib) (env : Env) (s : State)
    (h : s.cache.stale s.now q.cacheKey) :
    q.get m env s =
      match (m.httpClient.do env q.request s).1 with
      | .error err => (.error err, (m.httpClient.do env q.request s).2)
      | .ok data =>
        match env.Unmarshal data with
        | .error err => (.error err, (m.httpClient.do env q.request s).2)
        | .ok res =>
          (.ok res,
            { (m.httpClient.do env q.request s).2 with
              cache := (m.httpClient.do env q.request s).2.cache.Set
                (m.httpClient.do env q.request s).2.now q.cacheKey res DefaultExpiration }) := by
  rw [Query.get_eq, Cache.Get_stale _ _ _ h]
  rcases hd : m.httpClient.do env q.request s with ⟨r, s'⟩
  cases r with
  | error err => rfl
  | ok data => rfl

theorem get_stale_sent {lib : ListLib} (q : Query) (m : model lib) (env : Env) (s : State)
    (h : s.cache.stale s.now q.cacheKey) :
    (q.get m env s).2.sent = s.sent ++ [q.wire m.httpClient] := by
  rw [get_stale q m env s h]
  split
  · simp only [do_state]
  · split <;> simp only [do_state]


/-- C6: for each of the four queries, when the cache holds an unexpired item under
the query's key, the query returns the stored result with no error and leaves the
world as it was: no request is handed to the transport and the cache is unchanged. -/
theorem C6_cache_hit {lib : ListLib} (q : Query) (m : model lib) (env : Env) (s : State)
    (item : Item)
    (hitem : s.cache.items q.cacheKey = some item)
    (hfresh : 0 < item.Expiration → s.now ≤ item.Expiration) :
    q.get m env s = (.ok item.Object, s)
      ∧ (q.get m env s).2.sent = s.sent
      ∧ (q.get m env s).2.cache.items = s.cache.items := by
  have h : q.get m env s = (.ok item.Object, s) := by
    rw [Query.get_eq, Cache.Get_fresh _ _ _ item hitem hfresh]
  rw [h]
  exact ⟨rfl, rfl, rfl⟩

/-- C6 (witness): "Last 5 matches" held in the cache for nine minutes. -/
theorem C6_cache_hit_witness :
    Query.lastFiveMatches.get (sampleModel lastFiveMatches false) offline
        (cachedState "lastFiveMatches" [homeFixture] (9 * Minute))
      = (.ok ⟨[homeFixture]⟩, cachedState "lastFiveMatches" [homeFixture] (9 * Minute)) :=
  (C6_cache_hit .lastFiveMatches (sampleModel lastFiveMatches false) offline
    (cachedState "lastFiveMatches" [homeFixture] (9 * Minute))
    ⟨⟨[homeFixture]⟩, 10 * Minute⟩ (by decide) (fun _ => by decide)).1

/-- C7 (as amended): for each of the four queries, when the cache holds nothing under
the query's key or an item whose expiry instant (the store time plus ten minutes)
lies strictly before now, the query hands exactly one request to the transport; and
when the transport answers 200 with a body that decodes, the query returns the
decoded result and stores it under its key with an expiry ten minutes after the
store, the items under all other keys being unchanged. -/
theorem C7_cache_miss_fetches_once {lib : ListLib} (q : Query) (m : model lib) (env : Env)
    (s : State)
    (hstale : s.cache.stale s.now q.cacheKey)
    (httl : s.cache.defaultExpiration = 10 * Minute) :
    (q.get m env s).2.sent = s.sent ++ [q.wire m.httpClient]
      ∧ ∀ (res : HttpResponse) (data : String) (fresh : fixtureResponse),
          env.clientDo (q.wire m.httpClient) = .ok res → res.StatusCode = 200 →
          res.Body = .ok data → env.Unmarshal data = .ok fresh →
          (q.get m env s).1 = .ok fresh
            ∧ (q.get m env s).2.now = s.now + env.elapsed (q.wire m.httpClient)
            ∧ (q.get m env s).2.cache.items q.cacheKey
                = some ⟨fresh, (q.get m env s).2.now + 10 * Minute⟩
            ∧ (∀ k, k ≠ q.cacheKey → (q.get m env s).2.cache.items k = s.cache.items k)
            ∧ (q.get m env s).2.cache.defaultExpiration = s.cache.defaultExpiration := by
  refine ⟨get_stale_sent q m env s hstale, ?_⟩
  intro res data fresh hres hst hbody hum
  have hdo : (m.httpClient.do env q.request s).1 = .ok data := by
    rw [do_result, hres]
    simp [hst, hbody]
  have hget := get_stale q m env s hstale
  rw [hdo] at hget
  simp only [hum, do_state] at hget
  rw [hget]
  have hpos : (10 * Minute : Int) > 0 := by decide
  refine ⟨rfl, rfl, ?_, ?_, rfl⟩
  · simp [Cache.Set, DefaultExpiration, httl, hpos]
  · intro k hk
    simp [Cache.Set, hk]

/-- C7 (witness): "Next match" one nanosecond after its ten minutes have passed,
with a transport that answers with the home fixture. -/
theorem C7_cache_miss_fetches_once_witness :
    (Query.nextMatch.get (sampleModel nextMatch false) (online ⟨[homeFixture]⟩)
        (cachedState "nextMatch" [] (10 * Minute + 1))).2.sent
        = [Query.nextMatch.wire (sampleModel nextMatch false).httpClient]
      ∧ (Query.nextMatch.get (sampleModel nextMatch false) (online ⟨[homeFixture]⟩)
          (cachedState "nextMatch" [] (10 * Minute + 1))).1 = .ok ⟨[homeFixture]⟩ :=
  ⟨(C7_cache_miss_fetches_once .nextMatch (sampleModel nextMatch false)
      (online ⟨[homeFixture]⟩) (cachedState "nextMatch" [] (10 * Minute + 1))
      (by decide) rfl).1,
    ((C7_cache_miss_fetches_once .nextMatch (sampleModel nextMatch false)
      (online ⟨[homeFixture]⟩) (cachedState "nextMatch" [] (10 * Minute + 1))
      (by decide) rfl).2 ⟨200, .ok "body"⟩ "body" ⟨[homeFixture]⟩ rfl rfl rfl rfl).1⟩

/-- C7 (counterexample): "Next match" read exactly ten minutes after an empty answer
was stored at time 0. The ten minutes have run out (now is not before the store time
plus ten minutes), yet the query serves the stored answer, hands no request to the
transport although one would have answered with the home fixture, and leaves the
item in place. -/
theorem C7_expiry_instant_counterexample :
    (cachedState "nextMatch" [] (10 * Minute)).cache.items "nextMatch"
        = some ⟨⟨[]⟩, 0 + 10 * Minute⟩
      ∧ ¬ (cachedState "nextMatch" [] (10 * Minute)).now < 0 + 10 * Minute
      ∧ (Query.nextMatch.get (sampleModel nextMatch false) (online ⟨[homeFixture]⟩)
          (cachedState "nextMatch" [] (10 * Minute))).1 = .ok ⟨[]⟩
      ∧ (Query.nextMatch.get (sampleModel nextMatch false) (online ⟨[homeFixture]⟩)
          (cachedState "nextMatch" [] (10 * Minute))).2.sent = []
      ∧ (Query.nextMatch.get (sampleModel nextMatch false) (online ⟨[homeFixture]⟩)
          (cachedState "nextMatch" [] (10 * Minute))).2.cache.items "nextMatch"
        = some ⟨⟨[]⟩, 0 + 10 * Minute⟩ :=
  ⟨by decide, by decide, rfl, by decide, by decide⟩

/-- C8: for each of the four queries on a cache miss, when the transport fails, or
answers with a status other than 200, or its body cannot be read, or the body does
not decode, the query returns that error and the cache is exactly as before; hence
the next call of the same query, at any later time, hands a request to the
transport again. -/
theorem C8_failure_not_cached {lib : ListLib} (q : Query) (m : model lib) (env : Env)
    (s : State) (e : String)
    (hstale : s.cache.stale s.now q.cacheKey)
    (hfail : env.clientDo (q.wire m.httpClient) = .error e
      ∨ (∃ res, env.clientDo (q.wire m.httpClient) = .ok res ∧ res.StatusCode ≠ 200
          ∧ e = "unsuccessful request: " ++ (q.wire m.httpClient).RequestURI)
      ∨ (∃ res, env.clientDo (q.wire m.httpClient) = .ok res ∧ res.StatusCode = 200
          ∧ res.Body = .error e)
      ∨ (∃ res data, env.clientDo (q.wire m.httpClient) = .ok res ∧ res.StatusCode = 200
          ∧ res.Body = .ok data ∧ env.Unmarshal data = .error e)) :
    (q.get m env s).1 = .error e
      ∧ (q.get m env s).2.cache = s.cache
      ∧ (q.get m env s).2.sent = s.sent ++ [q.wire m.httpClient]
      ∧ ∀ (env2 : Env) (s2 : State), s2.cache = (q.get m env s).2.cache →
          (q.get m env s).2.now ≤ s2.now →
          (q.get m env2 s2).2.sent = s2.sent ++ [q.wire m.httpClient] := by
  have hget := get_stale q m env s hstale
  have hres : (q.get m env s).1 = .error e ∧ (q.get m env s).2
      = { s with sent := s.sent ++ [q.wire m.httpClient],
                 now := s.now + env.elapsed (q.wire m.httpClient) } := by
    rcases hfail with h | ⟨res, h, hst, he⟩ | ⟨res, h, hst, hb⟩ | ⟨res, data, h, hst, hb, hu⟩
    · have hdo : (m.httpClient.do env q.request s).1 = .error e := by
        rw [do_result, h]
      rw [hdo] at hget
      rw [hget]
      exact ⟨rfl, do_state q m.httpClient env s⟩
    · have hdo : (m.httpClient.do env q.request s).1 = .error e := by
        rw [do_result, h, he]
        simp [hst]
      rw [hdo] at hget
      rw [hget]
      exact ⟨rfl, do_state q m.httpClient env s⟩
    · have hdo : (m.httpClient.do env q.request s).1 = .error e := by
        rw [do_result, h]
        simp [hst, hb]
      rw [hdo] at hget
      rw [hget]
      exact ⟨rfl, do_state q m.httpClient env s⟩
    · have hdo : (m.httpClient.do env q.request s).1 = .ok data := by
        rw [do_result, h]
        simp [hst, hb]
      rw [hdo] at hget
      simp only [hu] at hget
      rw [hget]
      exact ⟨rfl, do_state q m.httpClient env s⟩
  refine ⟨hres.1, ?_, ?_, ?_⟩
  · rw [hres.2]
  · rw [hres.2]
  · intro env2 s2 hc hnow
    rw [hres.2] at hc hnow
    apply get_stale_sent
    rw [hc]
    apply Cache.stale_mono _ _ _ _ hstale
    have : (0 : Int) ≤ (env.elapsed (q.wire m.httpClient) : Int) := Int.ofNat_nonneg _
    simp only at hnow
    omega

/-- C8 (witness): "Last match" on the empty cache with the transport down. -/
theorem C8_failure_not_cached_witness :
    (Query.lastMatch.get (sampleModel lastMatch false) offline (freshState 5)).1
        = .error "dial tcp: connection refused"
      ∧ (Query.lastMatch.get (sampleModel lastMatch false) offline (freshState 5)).2.cache
        = (freshState 5).cache :=
  ⟨(C8_failure_not_cached .lastMatch (sampleModel lastMatch false) offline (freshState 5)
      "dial tcp: connection refused" (by decide) (Or.inl rfl)).1,
    (C8_failure_not_cached .lastMatch (sampleModel lastMatch false) offline (freshState 5)
      "dial tcp: connection refused" (by decide) (Or.inl rfl)).2.1⟩

/-! ## Menu reducer -/

/-- C9 (as amended): from every model, `Update` with the key "q" or "ctrl+c" returns
the model with the quitting flag set, list and committed choice untouched, together
with the quit command; and on a model whose flag is already set, `Update` with any
message keeps the flag set and otherwise treats the message as it would with the
flag clear. -/
theorem C9_quit_sets_flag (lib : ListLib) (m : model lib) :
    Update lib m (.KeyMsg "q") = ({ m with quitting := true }, Cmd.Quit)
      ∧ Update lib m (.KeyMsg "ctrl+c") = ({ m with quitting := true }, Cmd.Quit)
      ∧ ∀ msg : Msg, m.quitting = true →
          (Update lib m msg).1.quitting = true
            ∧ Update lib m msg
              = ({ (Update lib { m with quitting := false } msg).1 with quitting := true },
                  (Update lib { m with quitting := false } msg).2) := by
  refine ⟨by simp [Update], by simp [Update], ?_⟩
  intro msg hq
  obtain ⟨l, c, qf, hc⟩ := m
  simp only at hq
  subst hq
  cases msg with
  | WindowSizeMsg w h => exact ⟨rfl, rfl⟩
  | other tag => exact ⟨rfl, rfl⟩
  | KeyMsg key =>
    by_cases hk : key = "q" ∨ key = "ctrl+c"
    · simp [Update, hk]
    · by_cases he : key = "enter"
      · cases hsel : lib.SelectedItem l <;> simp [Update, hk, he, hsel]
      · simp [Update, hk, he]

/-- C9 (witness): the quitting sample model and the key "down". -/
theorem C9_quit_sets_flag_witness :
    (Update cursorList (sampleModel "" true) (.KeyMsg "down")).1.quitting = true :=
  ((C9_quit_sets_flag cursorList (sampleModel "" true)).2.2 (.KeyMsg "down") rfl).1

/-- C9 (counterexample): on a model whose quitting flag is set, the key "enter" is
still processed: the committed choice changes from none to the highlighted entry. -/
theorem C9_key_after_quit_counterexample :
    (sampleModel "" true).quitting = true
      ∧ (sampleModel "" true).choice = ""
      ∧ (Update cursorList (sampleModel "" true) (.KeyMsg "enter")).1.choice
          = "Last 5 matches" :=
  ⟨rfl, rfl, by decide⟩

end ManUnited
